import Mathlib

/-
Verification of the dotgk evaluation + caching engine.

The Rust sources are shallowly embedded here:
  * src/cache.rs      — cache entries, TTL expiry, point writes, the sync reconciler
  * src/lua_executor.rs — the script sandbox primitives (os, any/all/none),
                          the TTL comment parser, result extraction, and the
                          require searcher with its EvaluationContext
  * src/gatekeeper.rs — gatekeeper enumeration (find_all_gatekeepers)

Machine integers (u64 timestamps and TTLs) are modelled as Nat.  The one
u64 arithmetic operation in the embedded code, the TTL sum
`current_timestamp + ttl`, is modelled with the explicit wrap `% 2 ^ 64` of
release-mode u64 addition: `ttl` is arbitrary user input (a `--ttl`
argument or a parsed `-- ttl:` comment, each up to u64::MAX), so the wrap
is reachable.  All other u64 uses are comparisons, which involve no
arithmetic and cannot wrap.  Filesystem and OS queries are modelled as
explicit environment records.

The file is organised as: all definitions first, then all theorems.
-/

namespace Dotgk

/-! # Definitions -/

/-! ## Data model (src/cache.rs lines 23-44) -/

/-- `UpdateType` from src/cache.rs: provenance of a cache entry. -/
inductive UpdateType where
  | Evaluate
  | Sync
  | Set
deriving DecidableEq, Repr

/-- `CacheEntry` from src/cache.rs: one persisted record. -/
structure CacheEntry where
  value : Bool
  ts : Nat
  update_type : UpdateType
  expires_at : Option Nat
deriving DecidableEq, Repr

/-- The `cache` field of `Cache` is a JSON object, i.e. a map with unique
keys; we embed it as an association list. -/
abbrev CacheMap := List (String × CacheEntry)

/-- `Cache` from src/cache.rs: the whole persisted store. -/
structure Cache where
  cache : CacheMap
  ts : Nat
deriving DecidableEq, Repr

/-- First entry stored under a key (JSON maps have unique keys, so this is
the HashMap lookup). -/
def lookupEntry : CacheMap → String → Option CacheEntry
  | [], _ => none
  | (k, e) :: rest, n => if k = n then some e else lookupEntry rest n

/-- Remove every binding of a key. -/
def eraseKey : CacheMap → String → CacheMap
  | [], _ => []
  | (k, e) :: rest, n => if k = n then eraseKey rest n else (k, e) :: eraseKey rest n

/-- HashMap insert: the new binding replaces any previous binding of the key. -/
def insertEntry (m : CacheMap) (n : String) (e : CacheEntry) : CacheMap :=
  (n, e) :: eraseKey m n

/-- `is_cache_entry_expired` from src/cache.rs lines 115-121:
`current_timestamp >= expires_at` when `expires_at` is present, never
expired otherwise. -/
def is_cache_entry_expired (entry : CacheEntry) (current_timestamp : Nat) : Bool :=
  match entry.expires_at with
  | some expires_at => decide (expires_at ≤ current_timestamp)
  | none => false

/-! ## Point writes (src/cache.rs lines 57-113)

`cache_result_with_ttl` reads the cache document from disk (or starts from an
empty one), inserts the new entry and rewrites the document.  The on-disk
round trip is abstracted: `existing` is the parsed previous document
(`none` when the file is absent) and `now` the captured unix timestamp. -/

/-- The entry built by `cache_result_with_ttl`:
`expires_at = ttl_seconds.map(|ttl| current_timestamp + ttl)`, a u64 sum —
in release mode it wraps modulo 2^64 (in debug mode it panics and nothing
is written), hence the explicit `% 2 ^ 64`. -/
def writtenEntry (now : Nat) (result : Bool) (update_type : UpdateType)
    (ttl_seconds : Option Nat) : CacheEntry :=
  { value := result
    ts := now
    update_type := update_type
    expires_at := ttl_seconds.map (fun ttl => (now + ttl) % 2 ^ 64) }

/-- `cache_result_with_ttl` from src/cache.rs lines 57-113 (used by the
`evaluate` command with `UpdateType::Evaluate` and by `set_command` with
`UpdateType::Set`). -/
def cache_result_with_ttl (existing : Option Cache) (now : Nat) (name : String)
    (result : Bool) (update_type : UpdateType) (ttl_seconds : Option Nat) : Cache :=
  let base := match existing with
    | some c => c
    | none => { cache := [], ts := now }
  { cache := insertEntry base.cache name (writtenEntry now result update_type ttl_seconds)
    ts := now }

/-! ## Combinators (src/lua_executor.rs lines 98-109) -/

/-- `any(checks)` from src/lua_executor.rs: `checks.iter().any(|&x| x)`. -/
def any_check (checks : List Bool) : Bool := checks.any (fun x => x)

/-- `all(checks)` from src/lua_executor.rs: `checks.iter().all(|&x| x)`. -/
def all_check (checks : List Bool) : Bool := checks.all (fun x => x)

/-- `none(checks)` from src/lua_executor.rs: `!checks.iter().any(|&x| x)`. -/
def none_check (checks : List Bool) : Bool := !(checks.any (fun x => x))

/-! ## OS primitive (src/lua_executor.rs lines 77-93) -/

/-- The compile-time `cfg!` flags the `os` primitive consults. -/
structure TargetConfig where
  target_linux : Bool
  target_macos : Bool
  target_windows : Bool
  target_unix : Bool

/-- `os(name)` from src/lua_executor.rs lines 77-93: `some b` is the Lua
boolean result, `none` the `LuaError::RuntimeError` raised for an unknown
identifier. -/
def os_check (cfg : TargetConfig) (name : String) : Option Bool :=
  if name = "linux" then some cfg.target_linux
  else if name = "macos" then some cfg.target_macos
  else if name = "darwin" then some cfg.target_macos
  else if name = "windows" then some cfg.target_windows
  else if name = "unix" then some cfg.target_unix
  else none

/-! ## Point lookup: the `get` command (src/cache.rs lines 260-288)

`get_single_gatekeeper` loads the cache document and prints the stored value.
`store` is the loaded document (`none` when the file is absent or
unparsable); the result `some v` is the printed value, `none` the
`anyhow::bail!` error. -/

/-- `get_single_gatekeeper` from src/cache.rs lines 268-288. -/
def get_single_gatekeeper (store : Option Cache) (name : String) : Option Bool :=
  match store with
  | some c =>
    match lookupEntry c.cache name with
    | some entry => some entry.value
    | none => none
  | none => none

/-! ## TTL comment parsing and result extraction (src/lua_executor.rs lines 196-243) -/

/-- Numeric value of a run of decimal digits. -/
def ttlDigitsValue (digits : List Char) : Nat :=
  digits.foldl (fun acc c => acc * 10 + (c.toNat - '0'.toNat)) 0

/-- One application of the regex `^--\s*ttl:\s*(\d+)` to a (trimmed) line:
`some v` when the regex matches with captured digits of value `v`. -/
def ttlLineMatch (line : String) : Option Nat :=
  match line.toList with
  | '-' :: '-' :: rest =>
    match rest.dropWhile Char.isWhitespace with
    | 't' :: 't' :: 'l' :: ':' :: rest2 =>
      let digits := (rest2.dropWhile Char.isWhitespace).takeWhile Char.isDigit
      if digits.isEmpty then none else some (ttlDigitsValue digits)
    | _ => none
  | _ => none

/-- The per-line loop of `parse_ttl_comment`: the first line the regex
matches decides the result — `parse::<u64>().ok()` succeeds exactly when the
captured digits fit in a u64. -/
def parseTtlLines : List String → Option Nat
  | [] => none
  | l :: rest =>
    match ttlLineMatch l.trim with
    | some v => if v < 2 ^ 64 then some v else none
    | none => parseTtlLines rest

/-- `parse_ttl_comment` from src/lua_executor.rs lines 232-243.  (Rust
`str::lines` drops a final empty segment that `splitOn` keeps; an empty line
never matches the regex, so the difference is unobservable here.) -/
def parse_ttl_comment (script : String) : Option Nat :=
  parseTtlLines (script.splitOn "\n")

/-- `LuaGatekeeperResult` from src/lua_executor.rs lines 8-12. -/
structure LuaGatekeeperResult where
  value : Bool
  ttl : Option Nat
deriving DecidableEq, Repr

/-- The shapes of script return value that `LuaExecutor::execute`
distinguishes.  For a table, the first component is the `value` field when it
is a boolean (`none` = absent or non-boolean, which is an error), the second
the `ttl` field when it is an integer (`none` = absent or of another type,
which `get::<Option<u64>>(…).ok().flatten()` silently discards). -/
inductive LuaValue where
  | boolean : Bool → LuaValue
  | table : Option Bool → Option Nat → LuaValue
  | other : LuaValue

/-- Result extraction of `LuaExecutor::execute` (src/lua_executor.rs lines
196-230).  `outcome` is the value the Lua interpreter produced (`none` = the
script itself failed); the returned `none` is the `anyhow` error. -/
def execute (script : String) (outcome : Option LuaValue) : Option LuaGatekeeperResult :=
  let ttl := parse_ttl_comment script
  match outcome with
  | none => none
  | some (.boolean v) => some { value := v, ttl := ttl }
  | some (.table valueField ttlField) =>
    match valueField with
    | some v => some { value := v, ttl := ttlField.or ttl }
    | none => none
  | some .other => none

/-! ## Gatekeeper enumeration (src/gatekeeper.rs lines 114-179) -/

mutual

/-- A directory entry of the gatekeeper tree. -/
inductive FsEntry where
  | file : String → FsEntry
  | dir : String → FsListing → FsEntry

/-- A directory listing (the entries `read_dir` yields, in order). -/
inductive FsListing where
  | nil : FsListing
  | cons : FsEntry → FsListing → FsListing

end

/-- Name of a directory entry. -/
def entryName : FsEntry → String
  | .file n => n
  | .dir n _ => n

/-- `path.join("init.lua").exists()`: any entry named init.lua. -/
def listingHasInit : FsListing → Bool
  | .nil => false
  | .cons e rest => entryName e == "init.lua" || listingHasInit rest

/-- Rust `Path::file_stem` / `Path::extension` on a plain file name: split at
the last dot, with no extension when there is no dot or only a leading dot. -/
def fileStemExt (n : String) : String × Option String :=
  let rev := n.toList.reverse
  let extRev := rev.takeWhile (fun c => c != '.')
  match rev.dropWhile (fun c => c != '.') with
  | '.' :: stemRev =>
    if stemRev.isEmpty then (n, none)
    else (String.mk stemRev.reverse, some (String.mk extRev.reverse))
  | _ => (n, none)

/-- Prefixed gatekeeper name: `format!` with a slash unless the prefix is
empty. -/
def joinName (pfx : String) (n : String) : String :=
  if pfx = "" then n else pfx ++ "/" ++ n

mutual

/-- The per-entry body of `find_gatekeepers_recursive` (src/gatekeeper.rs
lines 127-179): a `.lua` file other than `init.lua` contributes its stem; a
directory holding an `init.lua` contributes its own name and is recursed
into either way. -/
def findGkEntry : FsEntry → String → List String
  | .file n, pfx =>
    match fileStemExt n with
    | (stem, some ext) =>
      if ext = "lua" then
        if stem = "init" then [] else [joinName pfx stem]
      else []
    | (_, none) => []
  | .dir d sub, pfx =>
    (if listingHasInit sub then [joinName pfx d] else []) ++
      findGkEntry.goListing sub (joinName pfx d)

/-- The directory loop of `find_gatekeepers_recursive`. -/
def findGkEntry.goListing : FsListing → String → List String
  | .nil, _ => []
  | .cons e rest, pfx => findGkEntry e pfx ++ findGkEntry.goListing rest pfx

end

/-- `find_all_gatekeepers` from src/gatekeeper.rs lines 114-125: empty when
the gatekeeper root does not exist (`root = none`). -/
def find_all_gatekeepers (root : Option FsListing) : List String :=
  match root with
  | none => []
  | some entries => findGkEntry.goListing entries ""

/-! ## The sync reconciler (src/cache.rs lines 290-463) -/

/-- Modelled from the spec: `Gatekeeper::from_name` / `Gatekeeper::evaluate`
are called from `sync_command` (src/cache.rs lines 376-379) but their
definitions are not under src/.  Per spec §4.4, evaluating a gatekeeper
loads its script and runs it, yielding a boolean and the declared TTL of
the gatekeeper; `evalResult = none` models `evaluate()` returning `Err`. -/
structure Gatekeeper where
  ttl : Option Nat
  evalResult : Option Bool
deriving DecidableEq, Repr

/-- The environment a sync pass reads: the enumerated gatekeeper names
(`find_all_gatekeepers`), path resolution (`get_gatekeeper_path`, `none` =
`Err`), file existence, file modification times (`none` = unreadable), the
gatekeeper loader (`Gatekeeper::from_name`, `none` = `Err`), and the
timestamp captured at the start of the pass. -/
structure Env where
  gatekeepers : List String
  pathOf : String → Option String
  pathExists : String → Bool
  modTime : String → Option Nat
  fromName : String → Option Gatekeeper
  now : Nat

/-- `is_gatekeeper_file_modified` from src/cache.rs lines 136-176: `true`
when the mtime of the file is strictly newer than the `ts` of the entry,
and also on every failure path (unresolvable path, missing file, unreadable
mtime). -/
def is_gatekeeper_file_modified (env : Env) (name : String) (cache_entry : CacheEntry) : Bool :=
  match env.pathOf name with
  | some gatekeeper_path =>
    if !env.pathExists gatekeeper_path then true
    else
      match env.modTime gatekeeper_path with
      | some file_timestamp => decide (cache_entry.ts < file_timestamp)
      | none => true
  | none => true

/-- The `should_remove` decision of the first sync loop (src/cache.rs lines
336-345): `Set` entries are never removed; `Evaluate`/`Sync` entries are
removed when no corresponding gatekeeper file exists (or the path cannot be
determined). -/
def should_remove (env : Env) (name : String) (entry : CacheEntry) : Bool :=
  match entry.update_type with
  | .Set => false
  | .Evaluate | .Sync =>
    match env.pathOf name with
    | some gatekeeper_path => !env.pathExists gatekeeper_path
    | none => true

/-- Whether the first sync loop (src/cache.rs lines 330-362) carries an
existing entry into the new cache: only non-gatekeeper keys are considered,
expired entries are skipped, and `should_remove` drops orphans. -/
def phase1Keeps (env : Env) (name : String) (entry : CacheEntry) : Bool :=
  !env.gatekeepers.contains name &&
    !is_cache_entry_expired entry env.now &&
    !should_remove env name entry

/-- The first sync loop: the entries of the existing cache it inserts into
`cache_entries`.  (The existing cache is a parsed JSON object, so its keys
are unique and a filter models the HashMap inserts.) -/
def phase1 (env : Env) (existing : CacheMap) : CacheMap :=
  existing.filter (fun p => phase1Keeps env p.1 p.2)

/-- The `should_evaluate` condition of the second sync loop (src/cache.rs
lines 367-372). -/
def should_evaluate (env : Env) (existing : CacheMap) (force : Bool) (name : String) : Bool :=
  force || (lookupEntry existing name).isNone ||
    (match lookupEntry existing name with
     | some entry =>
       is_cache_entry_expired entry env.now || is_gatekeeper_file_modified env name entry
     | none => false)

/-- The entry the second sync loop writes after a successful re-evaluation
(src/cache.rs lines 379-386): `update_type = Sync`, `ts = now`,
`expires_at = gatekeeper.ttl.map(|ttl| now + ttl)` — the same wrapping u64
sum as in `writtenEntry` (a comment-declared TTL can reach u64::MAX). -/
def freshSyncEntry (now : Nat) (gk : Gatekeeper) (v : Bool) : CacheEntry :=
  { value := v, ts := now, update_type := UpdateType.Sync
    expires_at := gk.ttl.map (fun ttl => (now + ttl) % 2 ^ 64) }

/-- Load-and-evaluate outcome for one gatekeeper during sync: `none` when
the evaluation fails (the gatekeeper is then omitted). -/
def evalEntry (env : Env) (name : String) : Option CacheEntry :=
  match env.fromName name with
  | some gk =>
    match gk.evalResult with
    | some v => some (freshSyncEntry env.now gk v)
    | none => none
  | none => none

/-- The second sync loop (src/cache.rs lines 364-403) over the remaining
gatekeeper names, threading the accumulated new cache.  `Except.error`
models the `?` on `Gatekeeper::from_name`: a load failure aborts the whole
sync, while an `evaluate()` failure merely skips the gatekeeper. -/
def phase2 (env : Env) (existing : CacheMap) (force : Bool) :
    List String → CacheMap → Except Unit CacheMap
  | [], acc => .ok acc
  | name :: rest, acc =>
    if should_evaluate env existing force name then
      match env.fromName name with
      | none => .error ()
      | some gk =>
        match gk.evalResult with
        | some v =>
          phase2 env existing force rest (insertEntry acc name (freshSyncEntry env.now gk v))
        | none => phase2 env existing force rest acc
    else
      match lookupEntry existing name with
      | some entry => phase2 env existing force rest (insertEntry acc name entry)
      | none => phase2 env existing force rest acc

/-- `sync_command` from src/cache.rs lines 290-463, reduced to the new cache
map it writes (counters, logging and the export renderers carry no decision
logic). -/
def sync_command (env : Env) (existing : CacheMap) (force : Bool) : Except Unit CacheMap :=
  phase2 env existing force env.gatekeepers (phase1 env existing)

/-- Per-gatekeeper summary of the second loop: the entry the new cache ends
up holding for a gatekeeper name. -/
def gk_sync_entry (env : Env) (existing : CacheMap) (force : Bool) (name : String) :
    Option CacheEntry :=
  if should_evaluate env existing force name then evalEntry env name
  else lookupEntry existing name

/-- The re-evaluation trigger exactly as claim C4 words it: force set, or
entry absent, or TTL-expired, or source modification time strictly newer
than the stored timestamp of the entry. -/
def claimC4Cond (env : Env) (existing : CacheMap) (force : Bool) (n : String) (t : Nat) :
    Bool :=
  force || (lookupEntry existing n).isNone ||
    (match lookupEntry existing n with
     | some e => is_cache_entry_expired e env.now || decide (e.ts < t)
     | none => false)

/-- Sync environment of the C3 counterexample: no gatekeeper resolves. -/
def envDropSet : Env :=
  { gatekeepers := []
    pathOf := fun _ => none
    pathExists := fun _ => false
    modTime := fun _ => none
    fromName := fun _ => none
    now := 200 }

/-- Sync environment of the C3 witness: identical to `envDropSet` but used
with an entry whose TTL has not yet elapsed; its source file neither
resolves nor exists, yet the entry survives. -/
def envKeepSet : Env :=
  { gatekeepers := []
    pathOf := fun _ => none
    pathExists := fun _ => false
    modTime := fun _ => none
    fromName := fun _ => none
    now := 200 }

/-- Sync environment of the C4 witness: one gatekeeper "g" with an intact
source file last modified at time 10, cached at ts 50 with no TTL. -/
def envFresh : Env :=
  { gatekeepers := ["g"]
    pathOf := fun x => if x = "g" then some "g.lua" else none
    pathExists := fun x => x == "g.lua"
    modTime := fun x => if x = "g.lua" then some 10 else none
    fromName := fun _ => some ⟨none, some true⟩
    now := 100 }

/-- Sync environment of the C6 witness: gatekeeper "good" evaluates to true,
gatekeeper "bad" loads but its evaluation fails. -/
def envSkipOne : Env :=
  { gatekeepers := ["good", "bad"]
    pathOf := fun _ => none
    pathExists := fun _ => false
    modTime := fun _ => none
    fromName := fun x =>
      if x = "good" then some ⟨none, some true⟩
      else if x = "bad" then some ⟨none, none⟩
      else none
    now := 0 }

/-! ## Require resolution and cycle detection
(src/lua_executor.rs lines 14-55 and 118-194, src/gatekeeper.rs lines 27-78)

A gatekeeper script is abstracted to the interface the require machinery
sees: the modules it requires, in call order, and its final boolean.
Arbitrary Lua control flow is not embeddable; claim C1 concerns only the
searcher / `EvaluationContext` / loader mechanism, which this interface
exercises fully. -/

/-- The gatekeeper scripts on disk, abstracted per the require interface. -/
structure ScriptDB where
  existsGk : String → Bool
  requiresOf : String → List String
  valueOf : String → Bool

/-- Failure modes of an evaluation. -/
inductive EvalErr where
  | circular
  | notFound
  | requireFailed
deriving DecidableEq, Repr

/-- Path candidates of the searcher (src/lua_executor.rs lines 126-139):
dots become slashes; a name without a slash additionally tries
`<name>/init`. -/
def pathsToTry (module_name : String) : List String :=
  let gkChars := module_name.toList.map (fun c => if c = '.' then '/' else c)
  let gk_name := String.mk gkChars
  if !gkChars.contains '/' then [gk_name, gk_name ++ "/init"]
  else [gk_name]

/-- First candidate path whose gatekeeper file exists. -/
def firstExisting (db : ScriptDB) : List String → Option String
  | [] => none
  | p :: rest => if db.existsGk p then some p else firstExisting db rest

/-- The `package.loaded` module cache of one interpreter instance. -/
def lookupLoaded : List (String × Bool) → String → Option Bool
  | [], _ => none
  | (k, v) :: rest, n => if k = n then some v else lookupLoaded rest n

/-- The sequence of `require` calls one executor makes.  `ctx` is the
`EvaluationContext.visited` set of this executor; `loaded` its
`package.loaded`.  `evalFn` is the `load_and_evaluate_gatekeeper` call the
loader makes — in the source that call constructs a NEW `LuaExecutor`,
whose `EvaluationContext` starts empty (src/lua_executor.rs line 49), so
`ctx` is NOT passed down.  The loader calls `leave` on the visited name on
success and failure alike, so `ctx` is unchanged across a completed
require. -/
def goRequires (evalFn : String → Option (Except EvalErr Bool)) (db : ScriptDB) :
    List String → List String → List (String × Bool) → Option (Except EvalErr Unit)
  | [], _, _ => some (.ok ())
  | m :: rest, ctx, loaded =>
    match lookupLoaded loaded m with
    | some _ => goRequires evalFn db rest ctx loaded
    | none =>
      match firstExisting db (pathsToTry m) with
      | none => some (.error .notFound)
      | some p =>
        if p ∈ ctx then some (.error .circular)
        else
          match evalFn p with
          | none => none
          | some (.ok v) => goRequires evalFn db rest ctx ((m, v) :: loaded)
          | some (.error _) => some (.error .requireFailed)

/-- `load_and_evaluate_gatekeeper` with explicit fuel bounding the nesting
depth of `require`: a fresh executor (fresh empty visited set, fresh module
cache) runs the requires of the named script and returns its value.
`none` means the evaluation does not complete within the given nesting
budget; `(∀ fuel, … = none)` therefore means the source recursion is
unbounded — in the implementation a stack overflow, never an error
return. -/
def evalGkFuel (db : ScriptDB) : Nat → String → Option (Except EvalErr Bool)
  | 0, _ => none
  | fuel + 1, name =>
    if db.existsGk name then
      match goRequires (fun s => evalGkFuel db fuel s) db (db.requiresOf name) [] [] with
      | none => none
      | some (.error e) => some (.error e)
      | some (.ok _) => some (.ok (db.valueOf name))
    else some (.error .notFound)

/-- Modelled from the spec: the intended cycle detection (spec §4.2 and
design note §9 — *an explicit context object passed by reference into every
recursive evaluation call*), which is not what src implements.  Identical
to `goRequires` except that the nested evaluation receives the in-progress
set of the caller with the visited name pushed. -/
def goRequiresShared (evalFn : String → List String → Option (Except EvalErr Bool))
    (db : ScriptDB) :
    List String → List String → List (String × Bool) → Option (Except EvalErr Unit)
  | [], _, _ => some (.ok ())
  | m :: rest, ctx, loaded =>
    match lookupLoaded loaded m with
    | some _ => goRequiresShared evalFn db rest ctx loaded
    | none =>
      match firstExisting db (pathsToTry m) with
      | none => some (.error .notFound)
      | some p =>
        if p ∈ ctx then some (.error .circular)
        else
          match evalFn p (p :: ctx) with
          | none => none
          | some (.ok v) => goRequiresShared evalFn db rest ctx ((m, v) :: loaded)
          | some (.error _) => some (.error .requireFailed)

/-- Modelled from the spec: evaluation with the shared in-progress set. -/
def evalGkShared (db : ScriptDB) : Nat → String → List String → Option (Except EvalErr Bool)
  | 0, _, _ => none
  | fuel + 1, name, ctx =>
    if db.existsGk name then
      match goRequiresShared (fun s c => evalGkShared db fuel s c) db
          (db.requiresOf name) ctx [] with
      | none => none
      | some (.error e) => some (.error e)
      | some (.ok _) => some (.ok (db.valueOf name))
    else some (.error .notFound)

/-- The failing input for claim C1: a gatekeeper `a` whose script first
requires `a` and then returns true — the simplest self-referential require
chain. -/
def dbSelfCycle : ScriptDB :=
  { existsGk := fun n => n == "a"
    requiresOf := fun n => if n == "a" then ["a"] else []
    valueOf := fun _ => true }

/-! # Theorems -/

/-! ## Association list lemmas -/

theorem lookupEntry_eraseKey_ne (m : CacheMap) (k n : String) (h : k ≠ n) :
    lookupEntry (eraseKey m k) n = lookupEntry m n := by
  induction m with
  | nil => rfl
  | cons p rest ih =>
    obtain ⟨k', e⟩ := p
    by_cases hk : k' = k
    · subst hk
      simp [eraseKey, lookupEntry, h, ih]
    · by_cases hn : k' = n
      · subst hn
        simp [eraseKey, lookupEntry, hk]
      · simp [eraseKey, lookupEntry, hk, hn, ih]

theorem lookupEntry_insert (m : CacheMap) (k n : String) (e : CacheEntry) :
    lookupEntry (insertEntry m k e) n = if k = n then some e else lookupEntry m n := by
  by_cases h : k = n
  · subst h; simp [insertEntry, lookupEntry]
  · simp [insertEntry, lookupEntry, h, lookupEntry_eraseKey_ne m k n h]

theorem lookupEntry_mem (m : CacheMap) (n : String) (e : CacheEntry)
    (h : lookupEntry m n = some e) : (n, e) ∈ m := by
  induction m with
  | nil => simp [lookupEntry] at h
  | cons p rest ih =>
    obtain ⟨k, a⟩ := p
    by_cases hk : k = n
    · subst hk
      simp [lookupEntry] at h
      simp [h]
    · simp [lookupEntry, hk] at h
      exact List.mem_cons_of_mem _ (ih h)

theorem lookupEntry_eq_none_of_not_mem (m : CacheMap) (n : String)
    (h : n ∉ m.map Prod.fst) : lookupEntry m n = none := by
  induction m with
  | nil => rfl
  | cons p rest ih =>
    obtain ⟨k, a⟩ := p
    rw [List.map_cons, List.mem_cons] at h
    push_neg at h
    simp [lookupEntry, Ne.symm h.1, ih h.2]

theorem lookupEntry_filter (q : String → CacheEntry → Bool) (m : CacheMap) (n : String)
    (hnd : (m.map Prod.fst).Nodup) :
    lookupEntry (m.filter (fun p => q p.1 p.2)) n =
      match lookupEntry m n with
      | some e => if q n e then some e else none
      | none => none := by
  induction m with
  | nil => rfl
  | cons p rest ih =>
    obtain ⟨k, e⟩ := p
    simp only [List.map_cons, List.nodup_cons] at hnd
    by_cases hk : k = n
    · subst hk
      by_cases hq : q k e = true
      · simp [List.filter_cons, hq, lookupEntry]
      · have hrest : lookupEntry (rest.filter (fun p => q p.1 p.2)) k = none := by
          cases hlf : lookupEntry (rest.filter (fun p => q p.1 p.2)) k with
          | none => rfl
          | some e' =>
            have hmem := lookupEntry_mem _ _ _ hlf
            have : (k, e') ∈ rest := List.mem_of_mem_filter hmem
            exact absurd (List.mem_map_of_mem Prod.fst this) hnd.1
        simp [List.filter_cons, hq, lookupEntry, hrest]
    · by_cases hq : q k e = true
      · simp [List.filter_cons, hq, lookupEntry, hk, ih hnd.2]
      · simp [List.filter_cons, hq, lookupEntry, hk, ih hnd.2]

/-! ## Claim C5 -/

/-- Counterexample to claim C5: the u64 sum wraps.  With
`set --ttl 18446744073709551615` (= 2^64 - 1, a legal u64 the CLI accepts)
at write time 1000, the entry actually written carries
`expires_at = (1000 + ttl) mod 2^64 = 999`, not `ts + ttl` — release-mode
Rust wraps the addition (debug mode panics and writes nothing), so the
claimed invariant `expires_at = ts + ttl` fails at this reachable input
(and the wrapped entry is already expired at its own write time). -/
theorem cache_write_ttl_overflow :
    lookupEntry
        (cache_result_with_ttl none 1000 "x" true UpdateType.Set
          (some (2 ^ 64 - 1))).cache "x"
      = some (writtenEntry 1000 true UpdateType.Set (some (2 ^ 64 - 1))) ∧
    (writtenEntry 1000 true UpdateType.Set (some (2 ^ 64 - 1))).expires_at = some 999 ∧
    (writtenEntry 1000 true UpdateType.Set (some (2 ^ 64 - 1))).expires_at
      ≠ some (1000 + (2 ^ 64 - 1)) := by
  refine ⟨rfl, by decide, by decide⟩

/-- Claim C5 as amended: for every cache write (evaluate, set, or sync):
when a TTL is supplied the written entry satisfies
`expires_at = (ts + ttl) mod 2^64` — the wrapping u64 sum, captured at
write time — which equals `ts + ttl` whenever that sum fits in a u64; when
no TTL is supplied `expires_at` is absent and the entry is never
TTL-expired at any later time.  `cache_result_with_ttl` is the single
write path of the `evaluate` and `set` commands; the last conjunct shows
the sync write (`freshSyncEntry`) builds the same entry with
`UpdateType.Sync` and the declared TTL of the gatekeeper. -/
theorem cache_write_ttl_invariant (existing : Option Cache) (now : Nat) (name : String)
    (result : Bool) (update_type : UpdateType) (ttl_seconds : Option Nat) :
    lookupEntry (cache_result_with_ttl existing now name result update_type ttl_seconds).cache
        name
        = some (writtenEntry now result update_type ttl_seconds) ∧
    (writtenEntry now result update_type ttl_seconds).ts = now ∧
    (∀ ttl, ttl_seconds = some ttl →
      (writtenEntry now result update_type ttl_seconds).expires_at
        = some ((now + ttl) % 2 ^ 64)) ∧
    (∀ ttl, ttl_seconds = some ttl → now + ttl < 2 ^ 64 →
      (writtenEntry now result update_type ttl_seconds).expires_at = some (now + ttl)) ∧
    (ttl_seconds = none →
      (writtenEntry now result update_type ttl_seconds).expires_at = none ∧
      ∀ later, is_cache_entry_expired (writtenEntry now result update_type ttl_seconds) later
        = false) ∧
    (∀ (gk : Gatekeeper) (v : Bool),
      freshSyncEntry now gk v = writtenEntry now v UpdateType.Sync gk.ttl) := by
  refine ⟨?_, rfl, ?_, ?_, ?_, fun gk v => rfl⟩
  · simp [cache_result_with_ttl, lookupEntry_insert]
  · intro ttl h
    simp [writtenEntry, h]
  · intro ttl h hlt
    simp [writtenEntry, h, Nat.mod_eq_of_lt]
    simpa using hlt
  · intro h
    simp [writtenEntry, is_cache_entry_expired, h]

/-- Witness for the amended C5 at a concrete write whose sum fits in u64. -/
theorem cache_write_ttl_invariant_witness :
    lookupEntry (cache_result_with_ttl none 1000 "x" true UpdateType.Set (some 60)).cache "x"
        = some (writtenEntry 1000 true UpdateType.Set (some 60)) ∧
    (writtenEntry 1000 true UpdateType.Set (some 60)).ts = 1000 ∧
    (∀ ttl, (some 60 : Option Nat) = some ttl →
      (writtenEntry 1000 true UpdateType.Set (some 60)).expires_at
        = some ((1000 + ttl) % 2 ^ 64)) ∧
    (∀ ttl, (some 60 : Option Nat) = some ttl → 1000 + ttl < 2 ^ 64 →
      (writtenEntry 1000 true UpdateType.Set (some 60)).expires_at = some (1000 + ttl)) ∧
    ((some 60 : Option Nat) = none →
      (writtenEntry 1000 true UpdateType.Set (some 60)).expires_at = none ∧
      ∀ later, is_cache_entry_expired (writtenEntry 1000 true UpdateType.Set (some 60)) later
        = false) ∧
    (∀ (gk : Gatekeeper) (v : Bool),
      freshSyncEntry 1000 gk v = writtenEntry 1000 v UpdateType.Sync gk.ttl) :=
  cache_write_ttl_invariant none 1000 "x" true UpdateType.Set (some 60)

/-! ## Claim C10 -/

/-- Claim C10: for every list of booleans, `none` is the negation of `any`;
on the empty list `any` is false, `all` is true and `none` is true. -/
theorem none_check_neg_any (l : List Bool) :
    none_check l = !any_check l ∧
    any_check [] = false ∧ all_check [] = true ∧ none_check [] = true := by
  exact ⟨rfl, rfl, rfl, rfl⟩

/-! ## Claim C8 -/

/-- Claim C8: `os` returns the boolean comparison against the target OS for
exactly the identifiers linux, macos, darwin, windows and unix, and fails
with a hard error (never a `false` result) for every other argument. -/
theorem os_check_known_or_error (cfg : TargetConfig) (name : String) :
    os_check cfg "linux" = some cfg.target_linux ∧
    os_check cfg "macos" = some cfg.target_macos ∧
    os_check cfg "darwin" = some cfg.target_macos ∧
    os_check cfg "windows" = some cfg.target_windows ∧
    os_check cfg "unix" = some cfg.target_unix ∧
    (name ≠ "linux" → name ≠ "macos" → name ≠ "darwin" → name ≠ "windows" →
      name ≠ "unix" → os_check cfg name = none) := by
  refine ⟨rfl, rfl, rfl, rfl, rfl, ?_⟩
  intro h1 h2 h3 h4 h5
  simp [os_check, h1, h2, h3, h4, h5]

/-- Witness for C8: the typo "ubuntu" is a hard error, and the known
identifiers succeed. -/
theorem os_check_known_or_error_witness :
    os_check ⟨true, false, false, true⟩ "linux" = some true ∧
    os_check ⟨true, false, false, true⟩ "macos" = some false ∧
    os_check ⟨true, false, false, true⟩ "darwin" = some false ∧
    os_check ⟨true, false, false, true⟩ "windows" = some false ∧
    os_check ⟨true, false, false, true⟩ "unix" = some true ∧
    ("ubuntu" ≠ "linux" → "ubuntu" ≠ "macos" → "ubuntu" ≠ "darwin" →
      "ubuntu" ≠ "windows" → "ubuntu" ≠ "unix" →
      os_check ⟨true, false, false, true⟩ "ubuntu" = none) :=
  os_check_known_or_error ⟨true, false, false, true⟩ "ubuntu"

/-! ## Claim C2 -/

/-- Counterexample to claim C2: at time 200 the entry for "x" is TTL-expired
(`expires_at = 100`), yet `get` returns the stale cached value instead of
triggering a fresh evaluation; the code path contains no evaluation or
write-back at all. -/
theorem get_expired_returns_stale :
    is_cache_entry_expired ⟨true, 0, UpdateType.Evaluate, some 100⟩ 200 = true ∧
    get_single_gatekeeper
      (some ⟨[("x", ⟨true, 0, UpdateType.Evaluate, some 100⟩)], 0⟩) "x" = some true := by
  exact ⟨rfl, rfl⟩

/-- Claim C2 as amended: `get(name)` returns the cached value whenever an
entry is present, regardless of TTL expiry; a missing entry (or a missing
cache document) is an error; `get` never evaluates or writes. -/
theorem get_returns_cached_ignoring_ttl (c : Cache) (name : String) :
    (∀ entry, lookupEntry c.cache name = some entry →
      get_single_gatekeeper (some c) name = some entry.value) ∧
    (lookupEntry c.cache name = none → get_single_gatekeeper (some c) name = none) ∧
    get_single_gatekeeper none name = none := by
  refine ⟨?_, ?_, rfl⟩
  · intro entry h
    simp [get_single_gatekeeper, h]
  · intro h
    simp [get_single_gatekeeper, h]

/-- Witness for the amended C2 at a concrete cache. -/
theorem get_returns_cached_ignoring_ttl_witness :
    (∀ entry,
      lookupEntry (Cache.mk [("x", ⟨false, 5, UpdateType.Sync, none⟩)] 5).cache "x"
          = some entry →
      get_single_gatekeeper (some (Cache.mk [("x", ⟨false, 5, UpdateType.Sync, none⟩)] 5)) "x"
        = some entry.value) ∧
    (lookupEntry (Cache.mk [("x", ⟨false, 5, UpdateType.Sync, none⟩)] 5).cache "x" = none →
      get_single_gatekeeper (some (Cache.mk [("x", ⟨false, 5, UpdateType.Sync, none⟩)] 5)) "x"
        = none) ∧
    get_single_gatekeeper none "x" = none :=
  get_returns_cached_ignoring_ttl (Cache.mk [("x", ⟨false, 5, UpdateType.Sync, none⟩)] 5) "x"

/-! ## Claim C7 -/

/-- Claim C7: a `ttl` field in a structured (table) return value takes
precedence over a TTL from a `-- ttl: <seconds>` comment; without a table
TTL the TTL of the comment is used; with neither (so `parse_ttl_comment`
yields `none`) the resulting ttl is `none`. -/
theorem ttl_resolution_precedence (script : String) (lv : LuaValue)
    (r : LuaGatekeeperResult) (h : execute script (some lv) = some r) :
    r.ttl = match lv with
      | .table _ (some t) => some t
      | _ => parse_ttl_comment script := by
  cases lv with
  | boolean v =>
    simp [execute] at h
    simp [← h]
  | table valueField ttlField =>
    cases valueField with
    | none => simp [execute] at h
    | some v =>
      simp [execute] at h
      cases ttlField with
      | none => simp [← h, Option.or]
      | some t => simp [← h, Option.or]
  | other => simp [execute] at h

/-- Witness for C7: the table TTL 7 wins over the comment TTL 5. -/
theorem ttl_resolution_precedence_witness :
    (LuaGatekeeperResult.mk true (some 7)).ttl =
      match LuaValue.table (some true) (some 7) with
      | .table _ (some t) => some t
      | _ => parse_ttl_comment "-- ttl: 5\nreturn true" :=
  ttl_resolution_precedence "-- ttl: 5\nreturn true"
    (LuaValue.table (some true) (some 7)) (LuaGatekeeperResult.mk true (some 7)) rfl

/-! ## Claim C9 -/

/-- Counterexample to claim C9: a flat file `foo.lua` next to a directory
`foo/` with an entrypoint `foo/init.lua` makes the name "foo" appear twice —
the enumeration is not deduplicated. -/
theorem find_all_gatekeepers_duplicate :
    ¬ (find_all_gatekeepers
        (some (FsListing.cons (FsEntry.file "foo.lua")
          (FsListing.cons
            (FsEntry.dir "foo" (FsListing.cons (FsEntry.file "init.lua") FsListing.nil))
            FsListing.nil)))).Nodup := by
  decide

/-- Claim C9 as amended: enumerating all gatekeepers returns the empty list,
not an error, when the gatekeeper root directory does not exist; the names
are not deduplicated — a flat script file and a directory with an entrypoint
file sharing the same name yield that name twice. -/
theorem find_all_gatekeepers_missing_root_and_dup :
    find_all_gatekeepers none = [] ∧
    find_all_gatekeepers
        (some (FsListing.cons (FsEntry.file "bar.lua")
          (FsListing.cons
            (FsEntry.dir "bar" (FsListing.cons (FsEntry.file "init.lua") FsListing.nil))
            FsListing.nil)))
      = ["bar", "bar"] := by
  exact ⟨rfl, by decide⟩

/-! ## Master lemmas about the sync result -/

theorem phase2_lookup (env : Env) (existing : CacheMap) (force : Bool) (n : String) :
    ∀ (gks : List String) (acc m : CacheMap),
      phase2 env existing force gks acc = .ok m →
      lookupEntry m n =
        if gks.contains n then
          Option.or (gk_sync_entry env existing force n) (lookupEntry acc n)
        else lookupEntry acc n := by
  intro gks
  induction gks with
  | nil =>
    intro acc m h
    simp only [phase2] at h
    cases h
    simp [List.contains]
  | cons g rest ih =>
    intro acc m h
    simp only [phase2] at h
    cases hse : should_evaluate env existing force g with
    | false =>
      simp only [hse, Bool.false_eq_true, if_false] at h
      cases hl : lookupEntry existing g with
      | none =>
        exfalso
        simp [should_evaluate, hl] at hse
      | some entry =>
        simp only [hl] at h
        have hrec := ih _ _ h
        have hg : gk_sync_entry env existing force g = some entry := by
          simp [gk_sync_entry, hse, hl]
        rw [hrec]
        by_cases hgn : g = n
        · subst hgn
          simp [lookupEntry_insert, hg, Option.or, List.contains]
        · simp [lookupEntry_insert, hgn, Ne.symm hgn, List.contains]
    | true =>
      simp only [hse, if_true] at h
      cases hfn : env.fromName g with
      | none =>
        simp [hfn] at h
      | some gk =>
        simp only [hfn] at h
        cases hev : gk.evalResult with
        | none =>
          simp only [hev] at h
          have hrec := ih _ _ h
          have hg : gk_sync_entry env existing force g = none := by
            simp [gk_sync_entry, hse, evalEntry, hfn, hev]
          rw [hrec]
          by_cases hgn : g = n
          · subst hgn
            simp [hg, Option.or, List.contains]
          · simp [hgn, Ne.symm hgn, List.contains]
        | some v =>
          simp only [hev] at h
          have hrec := ih _ _ h
          have hg : gk_sync_entry env existing force g
              = some (freshSyncEntry env.now gk v) := by
            simp [gk_sync_entry, hse, evalEntry, hfn, hev]
          rw [hrec]
          by_cases hgn : g = n
          · subst hgn
            simp [lookupEntry_insert, hg, Option.or, List.contains]
          · simp [lookupEntry_insert, hgn, Ne.symm hgn, List.contains]

theorem phase1_lookup_of_contains (env : Env) (existing : CacheMap) (n : String)
    (hn : env.gatekeepers.contains n = true) :
    lookupEntry (phase1 env existing) n = none := by
  cases hl : lookupEntry (phase1 env existing) n with
  | none => rfl
  | some e =>
    exfalso
    have hmem := lookupEntry_mem _ _ _ hl
    have hkeep := (List.mem_filter.mp hmem).2
    simp only [phase1Keeps] at hkeep
    rw [hn] at hkeep
    simp at hkeep

/-- For a current gatekeeper name, the new cache holds exactly the
per-gatekeeper sync decision. -/
theorem sync_lookup_gatekeeper (env : Env) (existing : CacheMap) (force : Bool)
    (m : CacheMap) (n : String)
    (hok : sync_command env existing force = .ok m)
    (hn : env.gatekeepers.contains n = true) :
    lookupEntry m n = gk_sync_entry env existing force n := by
  have h := phase2_lookup env existing force n env.gatekeepers (phase1 env existing) m hok
  rw [hn, phase1_lookup_of_contains env existing n hn] at h
  simpa using h

/-- For a key that is not a current gatekeeper, the new cache holds the old
entry exactly when it is neither expired nor removed as an orphan. -/
theorem sync_lookup_non_gatekeeper (env : Env) (existing : CacheMap) (force : Bool)
    (m : CacheMap) (n : String)
    (hnd : (existing.map Prod.fst).Nodup)
    (hok : sync_command env existing force = .ok m)
    (hn : env.gatekeepers.contains n = false) :
    lookupEntry m n =
      match lookupEntry existing n with
      | some e =>
        if !is_cache_entry_expired e env.now && !should_remove env n e then some e else none
      | none => none := by
  have h := phase2_lookup env existing force n env.gatekeepers (phase1 env existing) m hok
  rw [hn] at h
  simp only [Bool.false_eq_true, if_false] at h
  rw [h]
  unfold phase1
  rw [lookupEntry_filter _ _ _ hnd]
  have hmem : n ∉ env.gatekeepers := by simpa using hn
  cases hl : lookupEntry existing n with
  | none => rfl
  | some e => simp [phase1Keeps, hmem]

theorem phase2_ok (env : Env) (existing : CacheMap) (force : Bool) :
    ∀ (gks : List String) (acc : CacheMap),
      (∀ g ∈ gks, (env.fromName g).isSome) →
      ∃ m, phase2 env existing force gks acc = .ok m := by
  intro gks
  induction gks with
  | nil => exact fun acc _ => ⟨acc, rfl⟩
  | cons g rest ih =>
    intro acc hld
    have hg : (env.fromName g).isSome := hld g (List.mem_cons_self g rest)
    have hrest : ∀ x ∈ rest, (env.fromName x).isSome :=
      fun x hx => hld x (List.mem_cons_of_mem g hx)
    cases hse : should_evaluate env existing force g with
    | true =>
      cases hfn : env.fromName g with
      | none => rw [hfn] at hg; simp at hg
      | some gk =>
        cases hev : gk.evalResult with
        | some v =>
          obtain ⟨m, hm⟩ := ih (insertEntry acc g (freshSyncEntry env.now gk v)) hrest
          exact ⟨m, by simp [phase2, hse, hfn, hev, hm]⟩
        | none =>
          obtain ⟨m, hm⟩ := ih acc hrest
          exact ⟨m, by simp [phase2, hse, hfn, hev, hm]⟩
    | false =>
      cases hl : lookupEntry existing g with
      | some entry =>
        obtain ⟨m, hm⟩ := ih (insertEntry acc g entry) hrest
        exact ⟨m, by simp [phase2, hse, hl, hm]⟩
      | none =>
        obtain ⟨m, hm⟩ := ih acc hrest
        exact ⟨m, by simp [phase2, hse, hl, hm]⟩

/-! ## Claim C3 -/

/-- Counterexample to claim C3: a `Set`-provenance entry for a
non-gatekeeper key whose TTL has expired (`expires_at = 100 ≤ now = 200`) is
dropped by sync — the expiry check precedes the `Set`-provenance check
(src/cache.rs line 334), so `Set` entries are not preserved "regardless of
whether the entry is TTL-expired". -/
theorem sync_drops_expired_set_entry :
    (CacheEntry.mk true 0 UpdateType.Set (some 100)).update_type = UpdateType.Set ∧
    is_cache_entry_expired (CacheEntry.mk true 0 UpdateType.Set (some 100)) envDropSet.now
      = true ∧
    envDropSet.gatekeepers.contains "x" = false ∧
    sync_command envDropSet [("x", CacheEntry.mk true 0 UpdateType.Set (some 100))] false
      = .ok [] :=
  ⟨rfl, rfl, rfl, rfl⟩

/-- Claim C3 as amended: during sync, for a cache key that is not a current
gatekeeper, a `Set`-provenance entry is preserved verbatim exactly when it
is not TTL-expired; in particular it is never dropped for orphan reasons
(unresolvable or missing source file), but a TTL-expired `Set` entry is
dropped. -/
theorem set_entry_preserved_unless_expired (env : Env) (existing : CacheMap)
    (force : Bool) (m : CacheMap) (n : String) (e : CacheEntry)
    (hnd : (existing.map Prod.fst).Nodup)
    (hok : sync_command env existing force = .ok m)
    (hn : env.gatekeepers.contains n = false)
    (hl : lookupEntry existing n = some e)
    (hset : e.update_type = UpdateType.Set) :
    lookupEntry m n = if is_cache_entry_expired e env.now then none else some e := by
  have h := sync_lookup_non_gatekeeper env existing force m n hnd hok hn
  simp only [hl] at h
  have hsr : should_remove env n e = false := by
    simp [should_remove, hset]
  rw [h, hsr]
  cases hexp : is_cache_entry_expired e env.now <;> simp

/-- Witness for the amended C3: the non-expired `Set` entry "y" is preserved
verbatim although no gatekeeper file backs it. -/
theorem set_entry_preserved_unless_expired_witness :
    lookupEntry [("y", CacheEntry.mk true 0 UpdateType.Set (some 300))] "y"
      = if is_cache_entry_expired (CacheEntry.mk true 0 UpdateType.Set (some 300))
            envKeepSet.now
        then none else some (CacheEntry.mk true 0 UpdateType.Set (some 300)) :=
  set_entry_preserved_unless_expired envKeepSet
    [("y", CacheEntry.mk true 0 UpdateType.Set (some 300))] false
    [("y", CacheEntry.mk true 0 UpdateType.Set (some 300))] "y"
    (CacheEntry.mk true 0 UpdateType.Set (some 300))
    (by decide) rfl rfl rfl rfl

/-! ## Claim C4 -/

/-- Claim C4: for a current gatekeeper whose source file resolves, exists
and has a readable modification time `t`, the sync pass re-evaluates exactly
when force is set, or the cache entry is absent, or TTL-expired, or `t` is
strictly newer than the stored timestamp of the entry; otherwise the
existing entry is copied into the new cache unchanged. -/
theorem sync_reevaluation_condition (env : Env) (existing : CacheMap) (force : Bool)
    (m : CacheMap) (n : String) (p : String) (t : Nat)
    (hok : sync_command env existing force = .ok m)
    (hn : env.gatekeepers.contains n = true)
    (hp : env.pathOf n = some p)
    (hex : env.pathExists p = true)
    (hmt : env.modTime p = some t) :
    should_evaluate env existing force n = claimC4Cond env existing force n t ∧
    (should_evaluate env existing force n = false →
      lookupEntry m n = lookupEntry existing n) ∧
    (should_evaluate env existing force n = true →
      lookupEntry m n = evalEntry env n) := by
  have hmod : ∀ e, is_gatekeeper_file_modified env n e = decide (e.ts < t) := fun e => by
    simp [is_gatekeeper_file_modified, hp, hex, hmt]
  have hlook := sync_lookup_gatekeeper env existing force m n hok hn
  refine ⟨?_, ?_, ?_⟩
  · cases hl : lookupEntry existing n with
    | none => simp [should_evaluate, claimC4Cond, hl]
    | some e => simp [should_evaluate, claimC4Cond, hl, hmod e]
  · intro hse
    rw [hlook]
    simp [gk_sync_entry, hse]
  · intro hse
    rw [hlook]
    simp [gk_sync_entry, hse]

/-- Witness for C4: the fresh, unmodified entry for "g" is copied unchanged
by a non-forced sync. -/
theorem sync_reevaluation_condition_witness :
    should_evaluate envFresh [("g", CacheEntry.mk true 50 UpdateType.Sync none)] false "g"
      = claimC4Cond envFresh [("g", CacheEntry.mk true 50 UpdateType.Sync none)] false "g" 10 ∧
    (should_evaluate envFresh [("g", CacheEntry.mk true 50 UpdateType.Sync none)] false "g"
        = false →
      lookupEntry [("g", CacheEntry.mk true 50 UpdateType.Sync none)] "g"
        = lookupEntry [("g", CacheEntry.mk true 50 UpdateType.Sync none)] "g") ∧
    (should_evaluate envFresh [("g", CacheEntry.mk true 50 UpdateType.Sync none)] false "g"
        = true →
      lookupEntry [("g", CacheEntry.mk true 50 UpdateType.Sync none)] "g"
        = evalEntry envFresh "g") :=
  sync_reevaluation_condition envFresh
    [("g", CacheEntry.mk true 50 UpdateType.Sync none)] false
    [("g", CacheEntry.mk true 50 UpdateType.Sync none)] "g" "g.lua" 10
    rfl rfl rfl rfl rfl

/-! ## Claim C6 -/

/-- Claim C6: during sync (with every current gatekeeper loadable), a
failing evaluation of a single gatekeeper leaves exactly that gatekeeper
omitted from the new cache while the pass completes, and every other
gatekeeper still receives its own per-name sync outcome — an evaluation
failure of one gatekeeper never aborts the batch. -/
theorem sync_eval_failure_skipped (env : Env) (existing : CacheMap) (force : Bool)
    (n : String) (gk : Gatekeeper)
    (hld : ∀ g ∈ env.gatekeepers, (env.fromName g).isSome)
    (hn : env.gatekeepers.contains n = true)
    (hse : should_evaluate env existing force n = true)
    (hgk : env.fromName n = some gk)
    (hfail : gk.evalResult = none) :
    ∃ m, sync_command env existing force = .ok m ∧
      lookupEntry m n = none ∧
      (∀ g, env.gatekeepers.contains g = true → g ≠ n →
        lookupEntry m g = gk_sync_entry env existing force g) := by
  obtain ⟨m, hm⟩ := phase2_ok env existing force env.gatekeepers (phase1 env existing) hld
  have hsync : sync_command env existing force = .ok m := hm
  refine ⟨m, hsync, ?_, ?_⟩
  · rw [sync_lookup_gatekeeper env existing force m n hsync hn]
    simp [gk_sync_entry, hse, evalEntry, hgk, hfail]
  · intro g hg _
    exact sync_lookup_gatekeeper env existing force m g hsync hg

/-- Witness for C6: "bad" fails and is omitted; the sync still completes and
"good" gets its per-name outcome. -/
theorem sync_eval_failure_skipped_witness :
    ∃ m, sync_command envSkipOne [] false = .ok m ∧
      lookupEntry m "bad" = none ∧
      (∀ g, envSkipOne.gatekeepers.contains g = true → g ≠ "bad" →
        lookupEntry m g = gk_sync_entry envSkipOne [] false g) :=
  sync_eval_failure_skipped envSkipOne [] false "bad" ⟨none, none⟩
    (by decide) rfl rfl rfl rfl

/-! ## Claim C1 -/

/-- Claim C1 (code bug): evaluating the self-requiring gatekeeper "a" never
completes within any nesting budget — each nested require constructs a
fresh `LuaExecutor` with a fresh empty `EvaluationContext`, so
`EvaluationContext::visit` never finds the name already present, no
`CircularDependencyError` is ever raised, and the recursion is unbounded
(a stack overflow in the implementation).  Under the shared in-progress set
the spec intends, the same input terminates immediately: the nested
evaluation fails `circular` and the outer require fails. -/
theorem self_require_diverges :
    (∀ fuel, evalGkFuel dbSelfCycle fuel "a" = none) ∧
    evalGkShared dbSelfCycle 1 "a" ["a"] = some (.error .circular) ∧
    evalGkShared dbSelfCycle 2 "a" [] = some (.error .requireFailed) := by
  refine ⟨?_, rfl, rfl⟩
  intro fuel
  induction fuel with
  | zero => rfl
  | succ fuel ih =>
    have h0 : dbSelfCycle.requiresOf "a" = ["a"] := by decide
    have h1 : dbSelfCycle.existsGk "a" = true := by decide
    have h2 : firstExisting dbSelfCycle (pathsToTry "a") = some "a" := by decide
    have hreq : goRequires (fun s => evalGkFuel dbSelfCycle fuel s) dbSelfCycle ["a"] [] []
        = none := by
      simp [goRequires, lookupLoaded, h2, ih]
    simp [evalGkFuel, h0, h1, hreq]

end Dotgk
